import Mathlib

/-!
Verification of the reconciliation core of the cluster-version-operator
(pkg/cvo/cvo.go): the event bridge, the rate-limited retry policy
(`handleErr`), the worker loop (`processNextWorkItem`), the ordered sync
pipeline (`sync`), and the config resolver (`getConfig`) with its UUID
validation.  Stateful Go code is embedded as pure functions over explicit
inputs (the results of external collaborator calls) that return the trace
of observable operations they perform.
-/

/-- Keys on the work queue are plain strings (`workqueue` keys). -/
abbrev Key := String

/-- maxRetries is the number of times a key is retried before it is
dropped out of the queue (cvo.go line 41). -/
def maxRetries : Nat := 15

/-- installconfigKey is the key in ConfigMap that stores the InstallConfig
(cvo.go line 44). -/
def installconfigKey : String := "installconfig"

/-- workQueueKey is the one fixed key ever put on the operator queue
(cvo.go line 46). -/
def workQueueKey : Key := "kube-system/installconfig"

/-- A UUID is 16 bytes; we model it as a function from byte index to byte
value (a Nat, kept below 256 by explicit reduction where bytes are made). -/
abbrev UUID := Fin 16 → Nat

/-- The all-zero UUID, `uuid.Nil` in the library. -/
def UUID.nil : UUID := fun _ => 0

/-- UUID variants as enumerated by the vendored google/uuid library. -/
inductive UUIDVariant where
  | Invalid
  | RFC4122
  | Reserved
  | Microsoft
  | Future
deriving DecidableEq

/-- Modelled from the spec: the `Variant` method of the vendored
google/uuid library is not under src/.  The spec requires the cluster
identifier to be an RFC4122-variant UUID, decided by the top bits of byte
8: variant bits `10xxxxxx` mean RFC4122, `110xxxxx` Microsoft,
`111xxxxx` Future, anything else Reserved. -/
def UUID.Variant (u : UUID) : UUIDVariant :=
  if Nat.land (u 8) 0xc0 = 0x80 then UUIDVariant.RFC4122
  else if Nat.land (u 8) 0xe0 = 0xc0 then UUIDVariant.Microsoft
  else if Nat.land (u 8) 0xe0 = 0xe0 then UUIDVariant.Future
  else UUIDVariant.Reserved

/-- Modelled from the spec: the `Version` method of the vendored
google/uuid library is not under src/; the version is the top nibble of
byte 6. -/
def UUID.Version (u : UUID) : Nat := Nat.shiftRight (u 6) 4

/-- Modelled from the spec: `uuid.NewRandom` of the vendored google/uuid
library is not under src/.  It fills 16 bytes from the random source,
then forces the version-4 and RFC4122-variant bits; when reading the
random source fails it returns the zero UUID together with the error.
`rander` supplies the random bytes and `readErr` says whether the read
failed. -/
def newRandom (rander : Fin 16 → Nat) (readErr : Bool) : UUID × Bool :=
  match readErr with
  | true => (UUID.nil, true)
  | false =>
    let base : UUID := fun i => rander i % 256
    let withVersion : UUID :=
      Function.update base 6 (Nat.lor (Nat.land (base 6) 0x0f) 0x40)
    let withVariant : UUID :=
      Function.update withVersion 8 (Nat.lor (Nat.land (withVersion 8) 0x3f) 0x80)
    (withVariant, false)

/-- Go `error` values occurring in the embedded code: generic collaborator
errors carrying a message, and the two validation errors that `getConfig`
builds with `fmt.Errorf`, carrying the data interpolated into the format
string. -/
inductive Err where
  | msg (s : String)
  | invalidVariant (id : UUID) (v : UUIDVariant)
  | invalidVersion (id : UUID) (ver : Nat)
deriving DecidableEq

/-- The CVOConfig object assembled by `getConfig` (cvo.go lines 232-240). -/
structure CVOConfig where
  ns : String
  name : String
  upstream : String
  channel : String
  clusterID : UUID
deriving DecidableEq

/-- Result of `resourceapply.ApplyCVOConfigFromCache`: the authoritative
object, whether it changed, and an error. -/
structure ApplyResult where
  actual : Option CVOConfig
  changed : Bool
  err : Option Err
deriving DecidableEq

/-- Observable outcome of one `getConfig` run: the returned config, the
returned error, and whether the apply-against-cache write path was
invoked. -/
structure GetConfigRun where
  config : Option CVOConfig
  err : Option Err
  applyCalled : Bool
deriving DecidableEq

/-- Placeholder upstream URL hardcoded in `getConfig` (cvo.go line 227). -/
def upstreamDefault : String := "http://localhost:8080/graph"

/-- Placeholder channel hardcoded in `getConfig` (cvo.go line 228). -/
def channelDefault : String := "fast"

/-- Body of `getConfig` (cvo.go lines 225-249) after the identifier has
been generated: assembles the CVOConfig, validates the variant and then
the version of the cluster identifier, and only on success calls
`ApplyCVOConfigFromCache`, whose result it returns unchanged. -/
def getConfigWithID (ns nm : String) (id : UUID) (applyRes : ApplyResult) : GetConfigRun :=
  let config : CVOConfig :=
    { ns := ns, name := nm, upstream := upstreamDefault,
      channel := channelDefault, clusterID := id }
  if config.clusterID.Variant ≠ UUIDVariant.RFC4122 then
    { config := none,
      err := some (Err.invalidVariant config.clusterID config.clusterID.Variant),
      applyCalled := false }
  else if config.clusterID.Version ≠ 4 then
    { config := none,
      err := some (Err.invalidVersion config.clusterID config.clusterID.Version),
      applyCalled := false }
  else
    { config := applyRes.actual, err := applyRes.err, applyCalled := true }

/-- `getConfig` (cvo.go lines 225-249): `id, _ := uuid.NewRandom()`
discards the generation error (only the first component of `newRandom`
is consumed), then proceeds as `getConfigWithID`. -/
def getConfig (ns nm : String) (rander : Fin 16 → Nat) (readErr : Bool)
    (applyRes : ApplyResult) : GetConfigRun :=
  getConfigWithID ns nm (newRandom rander readErr).1 applyRes

set_option maxRecDepth 8192 in
theorem newRandom_ok_bits (rander : Fin 16 → Nat) :
    (newRandom rander false).1.Variant = UUIDVariant.RFC4122 ∧
    (newRandom rander false).1.Version = 4 := by
  have h8 : (newRandom rander false).1 8 =
      Nat.lor (Nat.land (rander 8 % 256) 0x3f) 0x80 := by
    simp [newRandom, Function.update_apply]
  have h6 : (newRandom rander false).1 6 =
      Nat.lor (Nat.land (rander 6 % 256) 0x0f) 0x40 := by
    simp [newRandom, Function.update_apply]
  have hb8 : rander 8 % 256 < 256 := Nat.mod_lt _ (by norm_num)
  have hb6 : rander 6 % 256 < 256 := Nat.mod_lt _ (by norm_num)
  have key1 : ∀ y, y < 256 →
      Nat.land (Nat.lor (Nat.land y 0x3f) 0x80) 0xc0 = 0x80 := by decide
  have key2 : ∀ y, y < 256 →
      Nat.shiftRight (Nat.lor (Nat.land y 0x0f) 0x40) 4 = 4 := by decide
  constructor
  · simp [UUID.Variant, h8, key1 _ hb8]
  · show Nat.shiftRight ((newRandom rander false).1 6) 4 = 4
    rw [h6]
    exact key2 _ hb6

/-- C4: a generated cluster identifier whose variant is not RFC4122 or
whose version is not 4 makes `getConfig` return a non-nil descriptive
error and a nil config, and the apply-against-cache write path is never
called in that run. -/
theorem C4_getConfig_validation (ns nm : String) (id : UUID) (applyRes : ApplyResult)
    (h : id.Variant ≠ UUIDVariant.RFC4122 ∨ id.Version ≠ 4) :
    (getConfigWithID ns nm id applyRes).err.isSome = true ∧
    (getConfigWithID ns nm id applyRes).config = none ∧
    (getConfigWithID ns nm id applyRes).applyCalled = false := by
  by_cases hv : id.Variant = UUIDVariant.RFC4122
  · rcases h with h | h
    · exact absurd hv h
    · simp [getConfigWithID, hv, h]
  · simp [getConfigWithID, hv]

theorem C4_getConfig_validation_witness :
    (UUID.nil.Variant ≠ UUIDVariant.RFC4122 ∨ UUID.nil.Version ≠ 4) ∧
    ((getConfigWithID "kube-system" "cvo" UUID.nil ⟨none, false, none⟩).err.isSome = true ∧
     (getConfigWithID "kube-system" "cvo" UUID.nil ⟨none, false, none⟩).config = none ∧
     (getConfigWithID "kube-system" "cvo" UUID.nil ⟨none, false, none⟩).applyCalled = false) :=
  ⟨Or.inl (by decide),
   C4_getConfig_validation "kube-system" "cvo" UUID.nil ⟨none, false, none⟩ (Or.inl (by decide))⟩

/-- C10: `getConfig` discards the error from identifier generation; a
successful generation always carries the forced version-4 and
RFC4122-variant bits, so both validation branches are unreachable and the
run proceeds to the apply path with the apply error (if any) returned;
a failed generation yields the zero identifier, whose Reserved variant the
first validation check rejects before the apply path is reached. -/
theorem C10_uuid_generation (rander : Fin 16 → Nat) (ns nm : String) (applyRes : ApplyResult) :
    ((newRandom rander false).1.Variant = UUIDVariant.RFC4122 ∧
     (newRandom rander false).1.Version = 4 ∧
     (getConfig ns nm rander false applyRes).applyCalled = true ∧
     (getConfig ns nm rander false applyRes).err = applyRes.err ∧
     (getConfig ns nm rander false applyRes).config = applyRes.actual) ∧
    ((newRandom rander true).1 = UUID.nil ∧
     UUID.nil.Variant = UUIDVariant.Reserved ∧
     (getConfig ns nm rander true applyRes).config = none ∧
     (getConfig ns nm rander true applyRes).err =
       some (Err.invalidVariant UUID.nil UUIDVariant.Reserved) ∧
     (getConfig ns nm rander true applyRes).applyCalled = false) := by
  obtain ⟨hvar, hver⟩ := newRandom_ok_bits rander
  constructor
  · refine ⟨hvar, hver, ?_, ?_, ?_⟩ <;>
      simp [getConfig, getConfigWithID, hvar, hver]
  · have hnil : (newRandom rander true).1 = UUID.nil := rfl
    have hres : UUID.nil.Variant = UUIDVariant.Reserved := by decide
    refine ⟨hnil, hres, ?_, ?_, ?_⟩ <;>
      simp [getConfig, getConfigWithID, hnil, hres]

/-- Observable actions of `handleErr` (cvo.go lines 174-190) on the queue,
the status sink and the process-wide error handler. -/
inductive OpAction where
  | forget (key : Key)
  | addRateLimited (key : Key)
  | publishDegraded (e : Err)
  | surfaceError (e : Err)
deriving DecidableEq

/-- Modelled from the spec: `syncDegradedStatus` lives in a repository
file that is not under src/.  Per the spec it publishes a Degraded status
condition carrying the last sync error, and that same error is then
surfaced for visibility; we model it as emitting the publication and
returning the error unchanged. -/
def syncDegradedStatus (e : Err) : List OpAction × Err :=
  ([OpAction.publishDegraded e], e)

/-- `handleErr` (cvo.go lines 174-190): nil error forgets the key; a
non-nil error below `maxRetries` requeues with rate limiting; otherwise
the error is routed through `syncDegradedStatus`, handed to
`utilruntime.HandleError`, and the key is forgotten.  `numRequeues` is
the value `queue.NumRequeues(key)` would report. -/
def handleErr (numRequeues : Nat) (err : Option Err) (key : Key) : List OpAction :=
  match err with
  | none => [OpAction.forget key]
  | some e =>
    if numRequeues < maxRetries then
      [OpAction.addRateLimited key]
    else
      let r := syncDegradedStatus e
      r.1 ++ [OpAction.surfaceError r.2, OpAction.forget key]

/-- Modelled from the spec: the rate limiter behind `AddRateLimited` (the
client-go workqueue default controller rate limiter) is not under src/;
per the spec the delay for requeue count n is `baseDelay * 2^n` with
`baseDelay = 5ms`, capped by an implementation ceiling (1000s for the
exponential component; a token-bucket component can only lengthen the
delay, so this is a lower bound on the real delay).  Delays in
milliseconds. -/
def baseDelayMs : Nat := 5

/-- Modelled from the spec: the implementation ceiling of the exponential
backoff component, 1000 seconds in milliseconds. -/
def maxDelayMs : Nat := 1000000

/-- Modelled from the spec: backoff delay applied to the n-th requeue
(0-indexed). -/
def backoffDelayMs (n : Nat) : Nat := min (baseDelayMs * 2 ^ n) maxDelayMs

/-- C1: on a nil sync error `handleErr` only forgets the key (no requeue,
no status publication), whatever the requeue count; on a non-nil error
with fewer than `maxRetries` (15) requeues it only rate-limited-requeues
the key (no Forget, no Degraded escalation). -/
theorem C1_handleErr_policy (n : Nat) (key : Key) (e : Err) :
    handleErr n none key = [OpAction.forget key] ∧
    (n < maxRetries →
      handleErr n (some e) key = [OpAction.addRateLimited key]) := by
  constructor
  · rfl
  · intro h
    simp [handleErr, h]

theorem C1_handleErr_policy_witness :
    handleErr 20 none workQueueKey = [OpAction.forget workQueueKey] ∧
    handleErr 0 (some (Err.msg "transient")) workQueueKey =
      [OpAction.addRateLimited workQueueKey] :=
  ⟨(C1_handleErr_policy 20 workQueueKey (Err.msg "transient")).1,
   (C1_handleErr_policy 0 workQueueKey (Err.msg "transient")).2 (by decide)⟩

/-- C2: when a non-nil sync error arrives with the requeue count at
`maxRetries`, `handleErr` publishes a Degraded condition carrying that
error, surfaces the same error to the process-wide handler, then forgets
the key; no rate-limited requeue happens on this path. -/
theorem C2_handleErr_exhaustion (n : Nat) (key : Key) (e : Err) (h : maxRetries ≤ n) :
    handleErr n (some e) key =
      [OpAction.publishDegraded e, OpAction.surfaceError e, OpAction.forget key] ∧
    OpAction.addRateLimited key ∉ handleErr n (some e) key := by
  have hn : ¬ n < maxRetries := Nat.not_lt.mpr h
  constructor
  · simp [handleErr, hn, syncDegradedStatus]
  · simp [handleErr, hn, syncDegradedStatus]

theorem C2_handleErr_exhaustion_witness :
    maxRetries ≤ 15 ∧
    (handleErr 15 (some (Err.msg "boom")) workQueueKey =
      [OpAction.publishDegraded (Err.msg "boom"), OpAction.surfaceError (Err.msg "boom"),
       OpAction.forget workQueueKey] ∧
     OpAction.addRateLimited workQueueKey ∉ handleErr 15 (some (Err.msg "boom")) workQueueKey) :=
  ⟨by decide, C2_handleErr_exhaustion 15 workQueueKey (Err.msg "boom") (by decide)⟩

/-- C7: the n-th consecutive failure (0-indexed, n below `maxRetries`) is
requeued rate-limited with a backoff delay of exactly `5ms * 2^n` (the
ceiling is not reached within 15 attempts), hence no less than that; once
the requeue count reaches `maxRetries` the key is forgotten and the trace
contains no further enqueue of any kind. -/
theorem C7_backoff_schedule (n : Nat) (key : Key) (e : Err) (h : n < maxRetries) :
    backoffDelayMs n = 5 * 2 ^ n ∧
    5 * 2 ^ n ≤ backoffDelayMs n ∧
    handleErr n (some e) key = [OpAction.addRateLimited key] ∧
    (∀ m, maxRetries ≤ m →
      handleErr m (some e) key =
        [OpAction.publishDegraded e, OpAction.surfaceError e, OpAction.forget key] ∧
      OpAction.addRateLimited key ∉ handleErr m (some e) key) := by
  have hceil : 5 * 2 ^ n ≤ maxDelayMs := by
    have h14 : n ≤ 14 := by
      have : n < 15 := h
      omega
    have hp : (2 : Nat) ^ n ≤ 2 ^ 14 := Nat.pow_le_pow_right (by norm_num) h14
    calc 5 * 2 ^ n ≤ 5 * 2 ^ 14 := Nat.mul_le_mul_left 5 hp
      _ ≤ maxDelayMs := by norm_num [maxDelayMs]
  have hdelay : backoffDelayMs n = 5 * 2 ^ n := by
    simp [backoffDelayMs, baseDelayMs, Nat.min_eq_left hceil]
  refine ⟨hdelay, le_of_eq hdelay.symm, ?_, ?_⟩
  · simp [handleErr, h]
  · intro m hm
    have hmlt : ¬ m < maxRetries := Nat.not_lt.mpr hm
    constructor
    · simp [handleErr, hmlt, syncDegradedStatus]
    · simp [handleErr, hmlt, syncDegradedStatus]

theorem C7_backoff_schedule_witness :
    0 < maxRetries ∧
    (backoffDelayMs 0 = 5 * 2 ^ 0 ∧
     5 * 2 ^ 0 ≤ backoffDelayMs 0 ∧
     handleErr 0 (some (Err.msg "transient")) workQueueKey =
       [OpAction.addRateLimited workQueueKey] ∧
     (∀ m, maxRetries ≤ m →
       handleErr m (some (Err.msg "transient")) workQueueKey =
         [OpAction.publishDegraded (Err.msg "transient"),
          OpAction.surfaceError (Err.msg "transient"), OpAction.forget workQueueKey] ∧
       OpAction.addRateLimited workQueueKey ∉
         handleErr m (some (Err.msg "transient")) workQueueKey)) :=
  ⟨by decide, C7_backoff_schedule 0 workQueueKey (Err.msg "transient") (by decide)⟩

/-- The six stages of `sync` (cvo.go lines 192-223), in source order. -/
inductive Stage where
  | ensureCRDs
  | resolveConfig
  | publishWorking
  | fetchPayload
  | applyPayload
  | publishDone
deriving DecidableEq

/-- The full stage order of `sync`. -/
def syncStageOrder : List Stage :=
  [Stage.ensureCRDs, Stage.resolveConfig, Stage.publishWorking,
   Stage.fetchPayload, Stage.applyPayload, Stage.publishDone]

/-- The update payload is opaque to this core. -/
abbrev Payload := String

/-- Inputs of one `sync` run: the results each external collaborator call
would produce.  The config stage runs the embedded `getConfig`, so its
inputs (`ns`, `nm`, `rander`, `randErr`, `applyCfgRes`) are carried here. -/
structure SyncEnv where
  crdErr : Option Err
  ns : String
  nm : String
  rander : Fin 16 → Nat
  randErr : Bool
  applyCfgRes : ApplyResult
  workingErr : Option Err
  payloadRes : Option Payload × Option Err
  payloadApplyErr : Option Err
  doneErr : Option Err

/-- The `getConfig` call made by stage 2 of `sync`. -/
def syncConfigRun (env : SyncEnv) : GetConfigRun :=
  getConfig env.ns env.nm env.rander env.randErr env.applyCfgRes

/-- `sync` (cvo.go lines 192-223): runs `syncCVOCRDs`, `getConfig`,
`syncStatus(Working)`, `syncUpdatePayloadContents`, `syncUpdatePayload`
and `syncStatus(Done)` in that order; each `if err != nil return err`
aborts the remainder with the stage error unchanged.  Returns the list of
stages invoked and the resulting error. -/
def sync (env : SyncEnv) : List Stage × Option Err :=
  match env.crdErr with
  | some e => ([Stage.ensureCRDs], some e)
  | none =>
    match (syncConfigRun env).err with
    | some e => ([Stage.ensureCRDs, Stage.resolveConfig], some e)
    | none =>
      match env.workingErr with
      | some e =>
        ([Stage.ensureCRDs, Stage.resolveConfig, Stage.publishWorking], some e)
      | none =>
        match env.payloadRes.2 with
        | some e =>
          ([Stage.ensureCRDs, Stage.resolveConfig, Stage.publishWorking,
            Stage.fetchPayload], some e)
        | none =>
          match env.payloadApplyErr with
          | some e =>
            ([Stage.ensureCRDs, Stage.resolveConfig, Stage.publishWorking,
              Stage.fetchPayload, Stage.applyPayload], some e)
          | none => (syncStageOrder, env.doneErr)

/-- C3: the stages of `sync` run in the fixed order (the invoked stages
are always an initial segment of `syncStageOrder`); the first stage that
fails aborts all later stages and its error is returned unchanged; in
particular a payload-fetch failure means neither the payload apply nor
the Done status publication runs and the result is exactly the fetch
error. -/
theorem C3_sync_pipeline (env : SyncEnv) :
    (∃ t, (sync env).1 ++ t = syncStageOrder) ∧
    (∀ e, env.crdErr = some e → sync env = ([Stage.ensureCRDs], some e)) ∧
    (∀ e, env.crdErr = none → (syncConfigRun env).err = some e →
      sync env = ([Stage.ensureCRDs, Stage.resolveConfig], some e)) ∧
    (∀ e, env.crdErr = none → (syncConfigRun env).err = none →
      env.workingErr = some e →
      sync env = ([Stage.ensureCRDs, Stage.resolveConfig, Stage.publishWorking], some e)) ∧
    (∀ e, env.crdErr = none → (syncConfigRun env).err = none →
      env.workingErr = none → env.payloadRes.2 = some e →
      sync env = ([Stage.ensureCRDs, Stage.resolveConfig, Stage.publishWorking,
        Stage.fetchPayload], some e) ∧
      Stage.applyPayload ∉ (sync env).1 ∧ Stage.publishDone ∉ (sync env).1) ∧
    (∀ e, env.crdErr = none → (syncConfigRun env).err = none →
      env.workingErr = none → env.payloadRes.2 = none → env.payloadApplyErr = some e →
      sync env = ([Stage.ensureCRDs, Stage.resolveConfig, Stage.publishWorking,
        Stage.fetchPayload, Stage.applyPayload], some e)) ∧
    (env.crdErr = none → (syncConfigRun env).err = none →
      env.workingErr = none → env.payloadRes.2 = none → env.payloadApplyErr = none →
      sync env = (syncStageOrder, env.doneErr)) := by
  refine ⟨?_, ?_, ?_, ?_, ?_, ?_, ?_⟩
  · unfold sync
    cases h1 : env.crdErr with
    | some e =>
      exact ⟨[Stage.resolveConfig, Stage.publishWorking, Stage.fetchPayload,
        Stage.applyPayload, Stage.publishDone], rfl⟩
    | none =>
      cases h2 : (syncConfigRun env).err with
      | some e =>
        exact ⟨[Stage.publishWorking, Stage.fetchPayload, Stage.applyPayload,
          Stage.publishDone], rfl⟩
      | none =>
        cases h3 : env.workingErr with
        | some e =>
          exact ⟨[Stage.fetchPayload, Stage.applyPayload, Stage.publishDone], rfl⟩
        | none =>
          cases h4 : env.payloadRes.2 with
          | some e => exact ⟨[Stage.applyPayload, Stage.publishDone], rfl⟩
          | none =>
            cases h5 : env.payloadApplyErr with
            | some e => exact ⟨[Stage.publishDone], rfl⟩
            | none => exact ⟨[], rfl⟩
  · intro e h1
    simp [sync, h1]
  · intro e h1 h2
    simp [sync, h1, h2]
  · intro e h1 h2 h3
    simp [sync, h1, h2, h3]
  · intro e h1 h2 h3 h4
    refine ⟨?_, ?_, ?_⟩ <;> simp [sync, h1, h2, h3, h4]
  · intro e h1 h2 h3 h4 h5
    simp [sync, h1, h2, h3, h4, h5]
  · intro h1 h2 h3 h4 h5
    simp [sync, h1, h2, h3, h4, h5]

/-- A concrete sync environment in which payload acquisition fails and
every earlier stage succeeds. -/
def fetchFailEnv : SyncEnv :=
  { crdErr := none, ns := "kube-system", nm := "cvo",
    rander := fun _ => 0, randErr := false,
    applyCfgRes := ⟨none, false, none⟩,
    workingErr := none,
    payloadRes := (none, some (Err.msg "fetch failed")),
    payloadApplyErr := none, doneErr := none }

theorem C3_sync_pipeline_witness :
    fetchFailEnv.crdErr = none ∧
    (syncConfigRun fetchFailEnv).err = none ∧
    fetchFailEnv.workingErr = none ∧
    fetchFailEnv.payloadRes.2 = some (Err.msg "fetch failed") ∧
    (sync fetchFailEnv =
      ([Stage.ensureCRDs, Stage.resolveConfig, Stage.publishWorking, Stage.fetchPayload],
       some (Err.msg "fetch failed")) ∧
     Stage.applyPayload ∉ (sync fetchFailEnv).1 ∧
     Stage.publishDone ∉ (sync fetchFailEnv).1) :=
  ⟨rfl, by decide, rfl, rfl,
   (C3_sync_pipeline fetchFailEnv).2.2.2.2.1 (Err.msg "fetch failed") rfl (by decide) rfl rfl⟩

/-- Outcome of one `syncHandler` invocation: a returned Go error (possibly
nil), or a panic that unwinds through the caller. -/
inductive SyncOutcome where
  | ok (e : Option Err)
  | panicked
deriving DecidableEq

/-- Observable operations of `processNextWorkItem` (cvo.go lines
161-172), in the order they execute. -/
inductive WorkerOp where
  | getOp (res : Option Key)
  | syncOp (key : Key)
  | handleErrOp (key : Key) (e : Option Err)
  | doneOp (key : Key)
deriving DecidableEq

/-- `processNextWorkItem` (cvo.go lines 161-172): `Get()` either signals
shutdown (return `false`, nothing else touched) or yields a key; then
`queue.Done(key)` is deferred, the sync handler runs, its error goes to
`handleErr`, and the function returns `true`.  Because `Done` is a
`defer`, it executes when the function returns — after `handleErr` — and
also during panic unwinding, in which case the function produces no
return value (modelled as `none`). -/
def processNextWorkItem (getRes : Option Key) (syncHandler : Key → SyncOutcome) :
    List WorkerOp × Option Bool :=
  match getRes with
  | none => ([WorkerOp.getOp none], some false)
  | some key =>
    match syncHandler key with
    | SyncOutcome.ok e =>
      ([WorkerOp.getOp (some key), WorkerOp.syncOp key,
        WorkerOp.handleErrOp key e, WorkerOp.doneOp key], some true)
    | SyncOutcome.panicked =>
      ([WorkerOp.getOp (some key), WorkerOp.syncOp key, WorkerOp.doneOp key], none)

/-- C5 counterexample: on a successful dequeue and sync, the trace of
`processNextWorkItem` feeds the error into `handleErr` BEFORE
`queue.Done(key)` runs (`Done` is deferred to function return), so the
claimed order Get-Sync-Done-handleErr does not hold. -/
theorem C5_counterexample :
    (processNextWorkItem (some workQueueKey) (fun _ => SyncOutcome.ok none)).1 =
      [WorkerOp.getOp (some workQueueKey), WorkerOp.syncOp workQueueKey,
       WorkerOp.handleErrOp workQueueKey none, WorkerOp.doneOp workQueueKey] ∧
    (processNextWorkItem (some workQueueKey) (fun _ => SyncOutcome.ok none)).1 ≠
      [WorkerOp.getOp (some workQueueKey), WorkerOp.syncOp workQueueKey,
       WorkerOp.doneOp workQueueKey, WorkerOp.handleErrOp workQueueKey none] := by
  constructor
  · rfl
  · decide

/-- C5 amended: in every iteration that dequeues a key the order is:
`Get()` returns the key, the sync pipeline runs, the returned error (or
nil) is fed into `handleErr`, and then `Done(key)` runs (deferred to the
return of the iteration), which returns `true`. -/
theorem C5_worker_iteration_order (getRes : Option Key) (f : Key → Option Err) (key : Key)
    (h : getRes = some key) :
    processNextWorkItem getRes (fun k => SyncOutcome.ok (f k)) =
      ([WorkerOp.getOp (some key), WorkerOp.syncOp key,
        WorkerOp.handleErrOp key (f key), WorkerOp.doneOp key], some true) := by
  subst h
  rfl

theorem C5_worker_iteration_order_witness :
    (some workQueueKey : Option Key) = some workQueueKey ∧
    processNextWorkItem (some workQueueKey) (fun _ => SyncOutcome.ok none) =
      ([WorkerOp.getOp (some workQueueKey), WorkerOp.syncOp workQueueKey,
        WorkerOp.handleErrOp workQueueKey none, WorkerOp.doneOp workQueueKey], some true) :=
  ⟨rfl, C5_worker_iteration_order (some workQueueKey) (fun _ => none) workQueueKey rfl⟩

/-- C9: if `Get()` signals shutdown, `processNextWorkItem` returns `false`
with no further queue operation; otherwise `Done(key)` appears exactly
once in the trace — also when the sync handler panics, because it is
installed by `defer` — and a non-panicking call returns `true`. -/
theorem C9_done_exactly_once (getRes : Option Key) (f : Key → SyncOutcome) :
    (getRes = none → processNextWorkItem getRes f = ([WorkerOp.getOp none], some false)) ∧
    (∀ key, getRes = some key →
      (processNextWorkItem getRes f).1.count (WorkerOp.doneOp key) = 1 ∧
      (∀ e, f key = SyncOutcome.ok e → (processNextWorkItem getRes f).2 = some true) ∧
      (f key = SyncOutcome.panicked → (processNextWorkItem getRes f).2 = none)) := by
  constructor
  · intro h
    subst h
    rfl
  · intro key h
    subst h
    cases hf : f key with
    | ok e =>
      refine ⟨?_, ?_, ?_⟩
      · simp [processNextWorkItem, hf, List.count_cons]
      · intro e2 he2
        simp [processNextWorkItem, hf]
      · intro hc
        cases hc
    | panicked =>
      refine ⟨?_, ?_, ?_⟩
      · simp [processNextWorkItem, hf, List.count_cons]
      · intro e2 he2
        cases he2
      · intro hc
        simp [processNextWorkItem, hf]

theorem C9_done_exactly_once_witness :
    ((none : Option Key) = none →
      processNextWorkItem none (fun _ => SyncOutcome.panicked) =
        ([WorkerOp.getOp none], some false)) ∧
    (∀ key, (none : Option Key) = some key →
      (processNextWorkItem none (fun _ => SyncOutcome.panicked)).1.count
        (WorkerOp.doneOp key) = 1 ∧
      (∀ e, SyncOutcome.panicked = SyncOutcome.ok e →
        (processNextWorkItem none (fun _ => SyncOutcome.panicked)).2 = some true) ∧
      (SyncOutcome.panicked = SyncOutcome.panicked →
        (processNextWorkItem none (fun _ => SyncOutcome.panicked)).2 = none)) :=
  C9_done_exactly_once none (fun _ => SyncOutcome.panicked)

/-- Calls that the event handler closures make on the operator queue. -/
inductive QueueCall where
  | add (key : Key)
deriving DecidableEq

/-- AddFunc closure of `eventHandler` (cvo.go line 150): ignores the
notification object and adds the fixed work key. -/
def eventHandlerAddFunc {A : Type} (_obj : A) : List QueueCall :=
  [QueueCall.add workQueueKey]

/-- UpdateFunc closure of `eventHandler` (cvo.go line 151): ignores both
objects and adds the fixed work key. -/
def eventHandlerUpdateFunc {A : Type} (_oldObj _newObj : A) : List QueueCall :=
  [QueueCall.add workQueueKey]

/-- DeleteFunc closure of `eventHandler` (cvo.go line 152): ignores the
notification object and adds the fixed work key. -/
def eventHandlerDeleteFunc {A : Type} (_obj : A) : List QueueCall :=
  [QueueCall.add workQueueKey]

/-- C6: every add, update or delete notification — including updates
where old and new coincide — performs exactly one `Add` of the same fixed
work key, and the notification payload has no influence on what is
enqueued. -/
theorem C6_eventHandler_fixed_key {A : Type} (o p : A) :
    eventHandlerAddFunc o = [QueueCall.add workQueueKey] ∧
    eventHandlerUpdateFunc o p = [QueueCall.add workQueueKey] ∧
    eventHandlerDeleteFunc o = [QueueCall.add workQueueKey] ∧
    eventHandlerUpdateFunc o o = eventHandlerUpdateFunc o p ∧
    eventHandlerAddFunc o = eventHandlerDeleteFunc p :=
  ⟨rfl, rfl, rfl, rfl, rfl⟩

/-- Modelled from the spec: the Leveled Retry Queue (the client-go
workqueue, not under src/).  State per the spec contract: `queue` holds
pending keys in FIFO order, `dirty` the keys marked as needing
processing, `processing` the keys currently in flight. -/
structure WorkQueue where
  queue : List Key
  dirty : List Key
  processing : List Key
deriving DecidableEq

/-- The queue as `New` creates it: empty. -/
def WorkQueue.empty : WorkQueue := ⟨[], [], []⟩

/-- Modelled from the spec: `Add(key)` idempotently marks the key as
needing processing; a key already marked is a no-op, a key in flight is
only re-marked, otherwise it also joins the pending queue. -/
def WorkQueue.add (q : WorkQueue) (k : Key) : WorkQueue :=
  if k ∈ q.dirty then q
  else
    let q1 : WorkQueue := { q with dirty := q.dirty ++ [k] }
    if k ∈ q1.processing then q1
    else { q1 with queue := q1.queue ++ [k] }

/-- Modelled from the spec: `Get()` returns the first pending key, marks
it in flight and clears its dirty mark; with nothing pending it reports
no key. -/
def WorkQueue.get (q : WorkQueue) : Option Key × WorkQueue :=
  match q.queue with
  | [] => (none, q)
  | k :: rest =>
    (some k,
     { queue := rest,
       dirty := q.dirty.filter (fun x => x != k),
       processing := q.processing ++ [k] })

/-- Modelled from the spec: `Done(key)` takes the key out of flight; a
key re-added while in flight becomes pending again. -/
def WorkQueue.done (q : WorkQueue) (k : Key) : WorkQueue :=
  let q1 : WorkQueue := { q with processing := q.processing.filter (fun x => x != k) }
  if k ∈ q1.dirty then { q1 with queue := q1.queue ++ [k] }
  else q1

/-- n-fold `Add` of the same key. -/
def WorkQueue.addN (q : WorkQueue) (k : Key) : Nat → WorkQueue
  | 0 => q
  | n + 1 => (WorkQueue.addN q k n).add k

theorem addN_empty_eq (k : Key) (n : Nat) (h : 1 ≤ n) :
    WorkQueue.empty.addN k n = ⟨[k], [k], []⟩ := by
  induction n with
  | zero => omega
  | succ m ih =>
    cases Nat.eq_or_lt_of_le h with
    | inl h1 =>
      have : m = 0 := by omega
      subst this
      simp [WorkQueue.addN, WorkQueue.empty, WorkQueue.add]
    | inr h1 =>
      have hm : 1 ≤ m := by omega
      show (WorkQueue.empty.addN k m).add k = _
      rw [ih hm]
      simp [WorkQueue.add]

/-- C8: enqueuing the same key any number of times (at least once) before
a dequeue leaves exactly one pending instance, equal to the effect of a
single enqueue; while the key is in flight a fresh enqueue leaves the
pending queue empty (so no second concurrent sync can start), and after
`Done` exactly one follow-up run is pending. -/
theorem C8_coalescing_single_flight (k : Key) (n : Nat) (h : 1 ≤ n) :
    (WorkQueue.empty.addN k n).queue = [k] ∧
    WorkQueue.empty.addN k n = WorkQueue.empty.add k ∧
    (WorkQueue.empty.addN k n).get.1 = some k ∧
    ((WorkQueue.empty.addN k n).get.2).queue = [] ∧
    (((WorkQueue.empty.addN k n).get.2).add k).queue = [] ∧
    ((((WorkQueue.empty.addN k n).get.2).add k).get).1 = none ∧
    (((((WorkQueue.empty.addN k n).get.2).add k).done k)).queue = [k] ∧
    (((((WorkQueue.empty.addN k n).get.2).add k).done k)).processing = [] := by
  have he : WorkQueue.empty.addN k n = ⟨[k], [k], []⟩ := addN_empty_eq k n h
  have h1 : WorkQueue.empty.add k = ⟨[k], [k], []⟩ := by
    simp [WorkQueue.add, WorkQueue.empty]
  have hget : (WorkQueue.empty.addN k n).get =
      (some k, ⟨[], [], [k]⟩) := by
    rw [he]
    simp [WorkQueue.get]
  have hadd2 : ((⟨[], [], [k]⟩ : WorkQueue)).add k = ⟨[], [k], [k]⟩ := by
    simp [WorkQueue.add]
  have hdone : ((⟨[], [k], [k]⟩ : WorkQueue)).done k = ⟨[k], [k], []⟩ := by
    simp [WorkQueue.done]
  rw [he, h1]
  have hget2 : ((⟨[k], [k], []⟩ : WorkQueue)).get = (some k, ⟨[], [], [k]⟩) := by
    simp [WorkQueue.get]
  rw [hget2]
  refine ⟨rfl, rfl, rfl, rfl, ?_, ?_, ?_, ?_⟩
  · rw [hadd2]
  · rw [hadd2]
    rfl
  · rw [hadd2, hdone]
  · rw [hadd2, hdone]

theorem C8_coalescing_single_flight_witness :
    1 ≤ 3 ∧
    ((WorkQueue.empty.addN workQueueKey 3).queue = [workQueueKey] ∧
     WorkQueue.empty.addN workQueueKey 3 = WorkQueue.empty.add workQueueKey ∧
     (WorkQueue.empty.addN workQueueKey 3).get.1 = some workQueueKey ∧
     ((WorkQueue.empty.addN workQueueKey 3).get.2).queue = [] ∧
     (((WorkQueue.empty.addN workQueueKey 3).get.2).add workQueueKey).queue = [] ∧
     ((((WorkQueue.empty.addN workQueueKey 3).get.2).add workQueueKey).get).1 = none ∧
     (((((WorkQueue.empty.addN workQueueKey 3).get.2).add workQueueKey).done
         workQueueKey)).queue = [workQueueKey] ∧
     (((((WorkQueue.empty.addN workQueueKey 3).get.2).add workQueueKey).done
         workQueueKey)).processing = []) :=
  ⟨by decide, C8_coalescing_single_flight workQueueKey 3 (by decide)⟩
